import Mathlib

/-!
Verification of the Conversation Session Engine of the Gemini-for-Windows
repository against its natural-language specification.

The embedding below is a shallow model of the Python modules
src/core/database.py, src/core/gemini_client.py and src/core/chat_manager.py.

Modelling conventions:
* The SQLite database is a pure state (DBState): the conversations table,
  the messages table (rows carry the AUTOINCREMENT id), and the next
  AUTOINCREMENT value.  SQLite CURRENT_TIMESTAMP strings compare
  chronologically, so timestamps are modelled as Nat, supplied by the
  environment as an explicit argument of each write operation.
* Each fallible database operation takes a storageError flag modelling
  whether the underlying medium raises sqlite3.Error during the call;
  the Python code catches the error and returns False, and because the
  transaction is never committed the state is unchanged.
* The remote generative API is an oracle: RemoteResult is what one remote
  call does (return text, or raise an exception with a message), and a
  chat call receives the request actually built by the adapter.
* get_messages sorts by timestamp (ORDER BY timestamp ASC) with a stable
  merge sort, matching row-scan order for equal timestamps.
-/

namespace GeminiApp

/-- Row of the messages table: id INTEGER PRIMARY KEY AUTOINCREMENT,
conversation_id, role, content, timestamp. -/
structure MessageRow where
  id : Nat
  conversation_id : String
  role : String
  content : String
  timestamp : Nat
deriving DecidableEq

/-- Row of the conversations table: id TEXT PRIMARY KEY, title,
created_at, updated_at. -/
structure ConversationRow where
  id : String
  title : String
  created_at : Nat
  updated_at : Nat
deriving DecidableEq

/-- The whole SQLite database file. nextMessageId is the next
AUTOINCREMENT value of the messages table (starts at 1). -/
structure DBState where
  conversations : List ConversationRow
  messages : List MessageRow
  nextMessageId : Nat
deriving DecidableEq

/-- A freshly initialized database (Database.initialize creates the two
empty tables). -/
def DBState.empty : DBState := ⟨[], [], 1⟩

namespace Database

/-- Database.create_conversation: INSERT INTO conversations (id, title);
a PRIMARY KEY collision raises sqlite3.Error which is caught and turned
into False, leaving the state unchanged. -/
def create_conversation (s : DBState) (conversation_id : String)
    (title : String) (now : Nat) : DBState × Bool :=
  if s.conversations.any (fun c => c.id == conversation_id) then (s, false)
  else
    ({ s with conversations :=
        s.conversations ++ [⟨conversation_id, title, now, now⟩] }, true)

/-- Database.get_conversations: SELECT * FROM conversations ORDER BY
updated_at DESC. -/
def get_conversations (s : DBState) : List ConversationRow :=
  s.conversations.mergeSort (fun a b => decide (b.updated_at ≤ a.updated_at))

/-- Database.add_message: INSERT INTO messages, then UPDATE the owning
conversation's updated_at, in one transaction committed at the end; on
sqlite3.Error it returns False with nothing committed.  The schema
declares a FOREIGN KEY on conversation_id but sqlite3 connections never
enable foreign-key enforcement, so the INSERT succeeds for any
conversation_id and the UPDATE simply matches no row. -/
def add_message (s : DBState) (conversation_id : String) (role : String)
    (content : String) (now : Nat) (storageError : Bool) : DBState × Bool :=
  if storageError then (s, false)
  else
    ({ conversations := s.conversations.map (fun c =>
          if c.id == conversation_id then { c with updated_at := now } else c),
       messages := s.messages ++
          [⟨s.nextMessageId, conversation_id, role, content, now⟩],
       nextMessageId := s.nextMessageId + 1 }, true)

/-- Database.get_messages: SELECT * FROM messages WHERE conversation_id = ?
ORDER BY timestamp ASC.  Rows are scanned in rowid order; the sort is
modelled as a stable merge sort on the timestamp. -/
def get_messages (s : DBState) (conversation_id : String) : List MessageRow :=
  (s.messages.filter (fun m => m.conversation_id == conversation_id)).mergeSort
    (fun a b => decide (a.timestamp ≤ b.timestamp))

/-- Database.delete_conversation: DELETE FROM messages WHERE
conversation_id = ?, then DELETE FROM conversations WHERE id = ?, one
commit at the end; DELETE matching no rows is not an error, so the call
returns True also for an unknown id. -/
def delete_conversation (s : DBState) (conversation_id : String)
    (storageError : Bool) : DBState × Bool :=
  if storageError then (s, false)
  else
    ({ s with
        messages := s.messages.filter
          (fun m => !(m.conversation_id == conversation_id)),
        conversations := s.conversations.filter
          (fun c => !(c.id == conversation_id)) }, true)

/-- Database.update_conversation_title: UPDATE conversations SET title,
updated_at WHERE id = ?; returns True also when no row matches. -/
def update_conversation_title (s : DBState) (conversation_id : String)
    (title : String) (now : Nat) (storageError : Bool) : DBState × Bool :=
  if storageError then (s, false)
  else
    ({ s with conversations := s.conversations.map (fun c =>
        if c.id == conversation_id then
          { c with title := title, updated_at := now } else c) }, true)

end Database

/-- Outcome of one remote google.generativeai call: the library either
returns a response whose .text is the given string, or raises an
exception rendered by str as the given message.  A blocked or empty
response is an exception as well, because response.text raises on it. -/
inductive RemoteResult where
  | ok (text : String)
  | error (message : String)
deriving DecidableEq

/-- Outcome of one remote streaming call: the chunk texts delivered, and
whether iteration afterwards terminated normally or raised. -/
inductive StreamOutcome where
  | done (chunks : List String)
  | failed (chunks : List String) (message : String)
deriving DecidableEq

/-- The request a history-seeded chat turn sends to the remote API:
the history given to start_chat (role already translated to the remote
vocabulary, one parts entry per message), plus the new message text. -/
structure ChatRequest where
  history : List (String × String)
  newMessage : String
deriving DecidableEq

namespace GeminiClient

/-- The f-string the except-branches of gemini_client.py build. -/
def errorText (e : String) : String := "エラーが発生しました: " ++ e

/-- GeminiClient.generate_response with stream=False: returns
response.text on success; any exception is caught and rendered as the
error f-string, returned as ordinary text. -/
def generate_response (remote : RemoteResult) : String :=
  match remote with
  | RemoteResult.ok t => t
  | RemoteResult.error e => errorText e

/-- GeminiClient._generate_stream: yields each chunk whose text is
truthy (nonempty); an exception mid-iteration is caught and yielded as a
final error-text fragment. -/
def generate_stream (outcome : StreamOutcome) : List String :=
  match outcome with
  | StreamOutcome.done cs => cs.filter (fun c => !(c == ""))
  | StreamOutcome.failed cs e =>
      cs.filter (fun c => !(c == "")) ++ [errorText e]

/-- Role translation inside generate_chat_response:
role = "user" if msg.role == "user" else "model". -/
def toRemoteRole (role : String) : String :=
  if role == "user" then "user" else "model"

/-- The conversation list generate_chat_response builds from the chat
history handed to it, as (role, parts) pairs. -/
def buildHistory (chat_history : List MessageRow) : List (String × String) :=
  chat_history.map (fun m => (toRemoteRole m.role, m.content))

/-- GeminiClient.generate_chat_response: builds the history, starts a
chat seeded with it, sends user_message, returns response.text; every
exception is caught and rendered as the error f-string. -/
def generate_chat_response (remote : ChatRequest → RemoteResult)
    (chat_history : List MessageRow) (user_message : String) : String :=
  match remote ⟨buildHistory chat_history, user_message⟩ with
  | RemoteResult.ok t => t
  | RemoteResult.error e => errorText e

/-- Python str.strip with no argument: drop whitespace at both ends.
A Python str is a sequence of code points, modelled as the char list of
a Lean string. -/
def pyStrip (s : String) : String :=
  ⟨((s.data.dropWhile Char.isWhitespace).reverse.dropWhile
      Char.isWhitespace).reverse⟩

/-- Python str.replace(c, "") for a one-character pattern: remove every
occurrence of that character. -/
def removeChar (s : String) (c : Char) : String :=
  ⟨s.data.filter (fun x => !(x == c))⟩

/-- The cleanup generate_chat_title applies to response.text:
title = response.text.strip(), then replace of a newline, a double
quote (code point 34) and an apostrophe (code point 39) each by the
empty string. -/
def cleanTitle (raw : String) : String :=
  removeChar (removeChar (removeChar (pyStrip raw) (Char.ofNat 10))
    (Char.ofNat 34)) (Char.ofNat 39)

/-- The default title, used as fallback: "新しいチャット". -/
def defaultTitle : String := "新しいチャット"

/-- The length cap of generate_chat_title: if len(title) > 30 then
title[:27] + "...". -/
def capTitle (title : String) : String :=
  if 30 < title.length then ⟨title.data.take 27⟩ ++ "..." else title

/-- GeminiClient.generate_chat_title: on success, clean and cap the
model's text and fall back to the default title when the result is
empty; any exception yields the default title. -/
def generate_chat_title (remote : RemoteResult) : String :=
  match remote with
  | RemoteResult.ok raw =>
      let title := capTitle (cleanTitle raw)
      if title == "" then defaultTitle else title
  | RemoteResult.error _ => defaultTitle

end GeminiClient

namespace ChatManager

/-- ChatManager.create_new_chat: a fresh uuid (supplied here as chat_id)
is persisted with the given title; the boolean create_conversation
returns is discarded and the id is returned. -/
def create_new_chat (s : DBState) (chat_id : String) (title : String)
    (now : Nat) : DBState × String :=
  ((Database.create_conversation s chat_id title now).1, chat_id)

/-- ChatManager.send_message: persist the user message (the returned
boolean is ignored), read the history back, call the Gemini client with
the history minus its last element plus the new text, persist the reply
as an assistant message (boolean again ignored) and return the reply.
nowUser and nowAssistant are the CURRENT_TIMESTAMP values of the two
inserts; the two storage-error flags model sqlite3.Error in either
add_message call. -/
def send_message (s : DBState) (chat_id : String) (user_message : String)
    (nowUser nowAssistant : Nat) (remote : ChatRequest → RemoteResult)
    (userAppendError assistantAppendError : Bool) : DBState × String :=
  let s1 := (Database.add_message s chat_id "user" user_message nowUser
      userAppendError).1
  let chat_history := Database.get_messages s1 chat_id
  let response := GeminiClient.generate_chat_response remote
      chat_history.dropLast user_message
  let s2 := (Database.add_message s1 chat_id "assistant" response
      nowAssistant assistantAppendError).1
  (s2, response)

/-- ChatManager.delete_chat forwards to Database.delete_conversation. -/
def delete_chat (s : DBState) (chat_id : String) (storageError : Bool) :
    DBState × Bool :=
  Database.delete_conversation s chat_id storageError

/-- ChatManager.update_chat_title forwards to
Database.update_conversation_title. -/
def update_chat_title (s : DBState) (chat_id : String) (title : String)
    (now : Nat) (storageError : Bool) : DBState × Bool :=
  Database.update_conversation_title s chat_id title now storageError

end ChatManager

/-! ## Shared helper lemmas -/

/-- The rows of the messages table belonging to one conversation, in
insertion (rowid) order. -/
def msgsFor (s : DBState) (conv : String) : List MessageRow :=
  s.messages.filter (fun m => m.conversation_id == conv)

/-- When a conversation's rows already carry non-decreasing timestamps in
insertion order, the ORDER BY timestamp of get_messages returns them in
insertion order unchanged. -/
theorem get_messages_eq_filter (s : DBState) (conv : String)
    (h : (msgsFor s conv).Pairwise (fun a b => a.timestamp ≤ b.timestamp)) :
    Database.get_messages s conv = msgsFor s conv :=
  List.mergeSort_of_sorted (h.imp (fun hab => decide_eq_true hab))

/-- A successful add_message appends exactly its row to the end of the
conversation's filtered row list, and leaves every other conversation's
row list unchanged. -/
theorem msgsFor_add_message (s : DBState) (conv conv2 role content : String)
    (now : Nat) :
    msgsFor (Database.add_message s conv role content now false).1 conv2
      = msgsFor s conv2 ++
        (if conv == conv2 then [⟨s.nextMessageId, conv, role, content, now⟩]
         else []) := by
  simp only [msgsFor, Database.add_message, Bool.false_eq_true, if_false,
    List.filter_append]
  by_cases hc : conv = conv2
  · subst hc; simp
  · simp [hc, List.filter_cons, beq_eq_false_iff_ne]

/-- A database holding one conversation "c" with the default title,
created at time 0: the state every send starts from in the examples. -/
def convC : DBState :=
  (Database.create_conversation DBState.empty "c" "新しいチャット" 0).1

/-! ## C6 -/

/-- C6 counterexample: appendMessage with an unknown conversation id does
not fail with NotFound and does not insert nothing — on an empty database
(no conversation at all) it returns ok and inserts the orphan message,
because the sqlite3 connection never enables foreign-key enforcement. -/
theorem C6_counterexample :
    DBState.empty.conversations = []
    ∧ (Database.add_message DBState.empty "ghost" "user" "hello" 5 false).2 = true
    ∧ (Database.add_message DBState.empty "ghost" "user" "hello" 5 false).1.messages
        = [⟨1, "ghost", "user", "hello", 5⟩] :=
  ⟨rfl, rfl, rfl⟩

/-- C6 (amended): add_message inserts its message row and bumps the
owning conversation's updated_at in one atomic step (a storage error
leaves the state entirely unchanged), and it returns ok — but it does
not check that the conversation exists: with an unknown id the row is
inserted anyway and no timestamp is bumped. -/
theorem C6_append_inserts_and_bumps_unconditionally (s : DBState)
    (conv role content : String) (now : Nat) :
    (Database.add_message s conv role content now false).2 = true
    ∧ (Database.add_message s conv role content now false).1.messages
        = s.messages ++ [⟨s.nextMessageId, conv, role, content, now⟩]
    ∧ (Database.add_message s conv role content now false).1.conversations
        = s.conversations.map (fun c =>
            if c.id == conv then { c with updated_at := now } else c)
    ∧ Database.add_message s conv role content now true = (s, false) :=
  ⟨rfl, rfl, rfl, rfl⟩

/-! ## C5 -/

/-- C5 counterexample: deleteConversation with an unknown conversation id
does not fail with NotFound: on the empty database it returns ok and
leaves the state unchanged, because a DELETE matching no rows is not an
error. -/
theorem C5_counterexample :
    DBState.empty.conversations = []
    ∧ (Database.delete_conversation DBState.empty "missing" false).2 = true
    ∧ (Database.delete_conversation DBState.empty "missing" false).1
        = DBState.empty :=
  ⟨rfl, rfl, rfl⟩

/-- C5 (amended): delete_conversation removes the conversation and all of
its messages in one atomic step, after which neither listConversations
nor listMessages returns any trace of them, and other conversations'
messages are untouched; but an unknown id is not reported: the call
returns ok in every case. -/
theorem C5_delete_cascades_atomically_but_unknown_id_is_ok (s : DBState)
    (conv other : String) (hne : other ≠ conv) :
    (Database.delete_conversation s conv false).2 = true
    ∧ Database.get_messages (Database.delete_conversation s conv false).1 conv = []
    ∧ (∀ c ∈ Database.get_conversations
          (Database.delete_conversation s conv false).1, c.id ≠ conv)
    ∧ (∀ m ∈ (Database.delete_conversation s conv false).1.messages,
          m.conversation_id ≠ conv)
    ∧ Database.get_messages (Database.delete_conversation s conv false).1 other
        = Database.get_messages s other := by
  refine ⟨rfl, ?_, ?_, ?_, ?_⟩
  · simp [Database.get_messages, Database.delete_conversation,
      List.filter_filter]
  · intro c hc
    simp [Database.get_conversations, Database.delete_conversation] at hc
    exact hc.2
  · intro m hm
    simp [Database.delete_conversation] at hm
    exact hm.2
  · simp only [Database.get_messages, Database.delete_conversation,
      Bool.false_eq_true, if_false, List.filter_filter]
    congr 1
    apply List.filter_congr
    intro m _
    by_cases hmo : m.conversation_id = other
    · simp [hmo, hne]
    · simp [hmo]

/-- A database with two conversations "c" and "x", one message in each:
the witness input for the delete claim. -/
def twoConvState : DBState :=
  (Database.add_message
    (Database.add_message
      ((Database.create_conversation convC "x" "別のチャット" 0).1)
      "c" "user" "hello" 1 false).1
    "x" "user" "hola" 2 false).1

/-- C5 witness: the amended delete claim applied to the concrete
two-conversation database, deleting "c" while "x" survives. -/
theorem C5_delete_witness :
    ("x" : String) ≠ "c"
    ∧ ((Database.delete_conversation twoConvState "c" false).2 = true
      ∧ Database.get_messages
          (Database.delete_conversation twoConvState "c" false).1 "c" = []
      ∧ (∀ c ∈ Database.get_conversations
            (Database.delete_conversation twoConvState "c" false).1, c.id ≠ "c")
      ∧ (∀ m ∈ (Database.delete_conversation twoConvState "c" false).1.messages,
            m.conversation_id ≠ "c")
      ∧ Database.get_messages
          (Database.delete_conversation twoConvState "c" false).1 "x"
          = Database.get_messages twoConvState "x") :=
  ⟨by decide,
   C5_delete_cascades_atomically_but_unknown_id_is_ok twoConvState "c" "x"
     (by decide)⟩

/-! ## C9 -/

/-- C9 counterexample: a storage error while appending the user message
inside sendMessage is not surfaced: the call still returns the model
reply "Hi" as a plain success, and the store afterwards holds only the
assistant message — the user's message was silently lost. -/
theorem C9_counterexample :
    (ChatManager.send_message convC "c" "Hello" 1 2
        (fun _ => RemoteResult.ok "Hi") true false).2 = "Hi"
    ∧ ((ChatManager.send_message convC "c" "Hello" 1 2
        (fun _ => RemoteResult.ok "Hi") true false).1.messages.map
          (fun m => (m.role, m.content)))
        = [("assistant", "Hi")] := by
  exact ⟨rfl, rfl⟩

/-- C9 (amended): the store converts storage errors into a boolean the
engine never reads: when both appends of a send fail, the database is
left unchanged and send_message still returns the generated reply
computed from the stale history, signalling nothing to the caller. -/
theorem C9_storage_errors_are_swallowed (s : DBState) (conv msg : String)
    (t1 t2 : Nat) (remote : ChatRequest → RemoteResult) :
    (ChatManager.send_message s conv msg t1 t2 remote true true).1 = s
    ∧ (ChatManager.send_message s conv msg t1 t2 remote true true).2
        = GeminiClient.generate_chat_response remote
            (Database.get_messages s conv).dropLast msg :=
  ⟨rfl, rfl⟩

/-! ## C4 -/

/-- C4 counterexample: two sendMessage calls on the same conversation
both run to completion: the second returns the ordinary model reply
(there is no Busy result anywhere), and the persisted message count of
the pair of calls is 4, not 2. -/
theorem C4_counterexample :
    (ChatManager.send_message
        (ChatManager.send_message convC "c" "Hello" 1 2
          (fun _ => RemoteResult.ok "Hi") false false).1
        "c" "Again" 3 4 (fun _ => RemoteResult.ok "Hi") false false).2 = "Hi"
    ∧ (ChatManager.send_message
        (ChatManager.send_message convC "c" "Hello" 1 2
          (fun _ => RemoteResult.ok "Hi") false false).1
        "c" "Again" 3 4 (fun _ => RemoteResult.ok "Hi") false false).1.messages.length
        = 4 := by
  exact ⟨rfl, rfl⟩

/-- C4 (amended): the engine has no per-conversation gate at all: every
send_message call unconditionally appends one user and one assistant
message, so a pair of calls against the same conversation always grows
its persisted message count by exactly 4, and no call ever reports
Busy. -/
theorem C4_no_busy_gate_pair_of_sends_appends_four (s : DBState)
    (conv m1 m2 : String) (t1 t2 t3 t4 : Nat)
    (remote : ChatRequest → RemoteResult) :
    (ChatManager.send_message
        (ChatManager.send_message s conv m1 t1 t2 remote false false).1
        conv m2 t3 t4 remote false false).1.messages.length
      = s.messages.length + 4 := by
  simp only [ChatManager.send_message, Database.add_message,
    Bool.false_eq_true, if_false]
  simp [List.length_append]

/-! ## C7 -/

/-- C7 counterexample: after the first successful assistant reply in a
conversation still holding the default title, the title is still the
default — even though the title-summarization operation, had it been
called on the first user message, would have produced a non-default
title. -/
theorem C7_counterexample :
    ((ChatManager.send_message convC "c" "東京の明日の天気は？" 1 2
        (fun _ => RemoteResult.ok "はい、どうぞ") false false).1.conversations.map
          (fun c => c.title)) = ["新しいチャット"]
    ∧ GeminiClient.generate_chat_title (RemoteResult.ok "東京の天気") = "東京の天気"
    ∧ ("東京の天気" : String) ≠ GeminiClient.defaultTitle := by
  refine ⟨rfl, by decide, by decide⟩

/-- An add_message call never changes any conversation's title, whether
or not the medium fails. -/
theorem titles_unchanged_by_add_message (s : DBState)
    (conv role content : String) (now : Nat) (err : Bool) :
    ((Database.add_message s conv role content now err).1.conversations.map
        (fun c => c.title))
      = s.conversations.map (fun c => c.title) := by
  cases err
  · simp only [Database.add_message, Bool.false_eq_true, if_false,
      List.map_map]
    apply List.map_congr_left
    intro a _
    by_cases h : a.id = conv <;> simp [h]
  · rfl

/-- C7 (amended): the title-summarization operation exists (with its
default-title fallback) but no code path of the send flow invokes it:
send_message never reads or writes any conversation title, whatever the
remote does and even under storage errors; titles change only through
the explicit update_chat_title call. -/
theorem C7_send_flow_never_touches_titles (s : DBState) (conv msg : String)
    (t1 t2 : Nat) (remote : ChatRequest → RemoteResult) (e1 e2 : Bool) :
    ((ChatManager.send_message s conv msg t1 t2 remote e1 e2).1.conversations.map
        (fun c => c.title))
      = s.conversations.map (fun c => c.title) := by
  simp only [ChatManager.send_message]
  rw [titles_unchanged_by_add_message, titles_unchanged_by_add_message]

/-! ## C1 -/

/-- The database after a send whose remote call raises with message
"boom": conversation "c" had the default title and no messages. -/
def failedSendState : DBState :=
  (ChatManager.send_message convC "c" "Hello" 1 2
    (fun _ => RemoteResult.error "boom") false false).1

/-- C1 counterexample: after a failed generation, listMessages does not
contain only the user message — the error text was persisted as an
assistant message and is the last entry. -/
theorem C1_counterexample :
    (Database.get_messages failedSendState "c").map (fun m => (m.role, m.content))
      = [("user", "Hello"), ("assistant", "エラーが発生しました: boom")]
    ∧ (Database.get_messages failedSendState "c").length ≠ 1 := by
  have h : Database.get_messages failedSendState "c" = msgsFor failedSendState "c" :=
    get_messages_eq_filter _ _ (by decide)
  rw [h]
  exact ⟨by decide, by decide⟩

/-- C1 (amended): every send_message call appends exactly one user
message and then exactly one assistant message, whether or not the
remote call fails: a remote failure does not raise — its rendered error
text becomes the persisted assistant message. -/
theorem C1_send_appends_user_then_assistant_even_on_failure (s : DBState)
    (conv msg : String) (t1 t2 : Nat) (remote : ChatRequest → RemoteResult) :
    ∃ reply : String,
      (ChatManager.send_message s conv msg t1 t2 remote false false).2 = reply
      ∧ (ChatManager.send_message s conv msg t1 t2 remote false false).1.messages
          = s.messages ++
            [⟨s.nextMessageId, conv, "user", msg, t1⟩,
             ⟨s.nextMessageId + 1, conv, "assistant", reply, t2⟩]
      ∧ (∀ e, (∀ req, remote req = RemoteResult.error e) →
          reply = GeminiClient.errorText e) := by
  refine ⟨(ChatManager.send_message s conv msg t1 t2 remote false false).2,
    rfl, ?_, ?_⟩
  · simp [ChatManager.send_message, Database.add_message]
  · intro e h
    simp [ChatManager.send_message, GeminiClient.generate_chat_response, h,
      GeminiClient.errorText]

/-- C1 witness: the amended claim instantiated on a concrete failing
remote: the reply persisted as the assistant message is the rendered
error text. -/
theorem C1_failure_witness :
    (ChatManager.send_message convC "c" "Hello" 1 2
        (fun _ => RemoteResult.error "netdown") false false).2
      = GeminiClient.errorText "netdown" := by
  obtain ⟨reply, h1, h2, h3⟩ :=
    C1_send_appends_user_then_assistant_even_on_failure convC "c" "Hello" 1 2
      (fun _ => RemoteResult.error "netdown")
  rw [h1]
  exact h3 "netdown" (fun _ => rfl)

/-! ## C2 -/

/-- C2 counterexample: a remote network error does not surface as a
raised GenerationFailed error carrying the cause: generate_response
catches the exception and returns it rendered as ordinary, non-empty
text. -/
theorem C2_counterexample :
    GeminiClient.generate_response (RemoteResult.error "network timeout")
      = "エラーが発生しました: network timeout"
    ∧ GeminiClient.generate_response (RemoteResult.error "network timeout") ≠ "" :=
  ⟨rfl, by decide⟩

/-- C2 (amended): no client operation raises: every remote error is
caught and converted to ordinary text — single-shot and chat-turn
completion return the rendered error string, the streaming generator
yields it as a final fragment after the chunks already delivered, and
title summarization returns the default title; successful output is
returned as-is. -/
theorem C2_all_operations_return_errors_as_text (e t user_message : String)
    (cs : List String) (hist : List MessageRow) :
    GeminiClient.generate_response (RemoteResult.error e)
      = GeminiClient.errorText e
    ∧ GeminiClient.generate_response (RemoteResult.ok t) = t
    ∧ GeminiClient.generate_stream (StreamOutcome.failed cs e)
        = cs.filter (fun c => !(c == "")) ++ [GeminiClient.errorText e]
    ∧ (∀ remote : ChatRequest → RemoteResult,
        remote ⟨GeminiClient.buildHistory hist, user_message⟩
          = RemoteResult.error e →
        GeminiClient.generate_chat_response remote hist user_message
          = GeminiClient.errorText e)
    ∧ GeminiClient.generate_chat_title (RemoteResult.error e)
        = GeminiClient.defaultTitle := by
  refine ⟨rfl, rfl, rfl, ?_, rfl⟩
  intro remote h
  simp [GeminiClient.generate_chat_response, h]

/-- C2 witness: the chat-turn part of the amended claim applied to a
concrete remote that raises a quota error. -/
theorem C2_chat_turn_witness :
    ((fun _ : ChatRequest => RemoteResult.error "quota exceeded")
        ⟨GeminiClient.buildHistory [], "Hello"⟩
      = RemoteResult.error "quota exceeded")
    ∧ GeminiClient.generate_chat_response
        (fun _ => RemoteResult.error "quota exceeded") [] "Hello"
      = GeminiClient.errorText "quota exceeded" :=
  ⟨rfl,
   (C2_all_operations_return_errors_as_text "quota exceeded" "" "Hello" [] []).2.2.2.1
     (fun _ => RemoteResult.error "quota exceeded") rfl⟩

/-! ## C8 -/

/-- The cap step never produces more than 30 characters. -/
theorem capTitle_length_le (t : String) : (GeminiClient.capTitle t).length ≤ 30 := by
  unfold GeminiClient.capTitle
  by_cases h : 30 < t.length
  · rw [if_pos h, String.length_append, String.length_mk, List.length_take]
    have h3 : ("..." : String).length = 3 := rfl
    rw [h3]
    omega
  · rw [if_neg h]
    omega

/-- When the cleaned title is longer than 30 characters, the cap step
keeps its first 27 characters and appends the three-dot marker, for a
total of exactly 30. -/
theorem capTitle_eq_of_gt (t : String) (h : 30 < t.length) :
    GeminiClient.capTitle t = String.mk (t.data.take 27) ++ "..."
    ∧ (GeminiClient.capTitle t).length = 30 := by
  constructor
  · unfold GeminiClient.capTitle
    rw [if_pos h]
  · unfold GeminiClient.capTitle
    rw [if_pos h, String.length_append, String.length_mk, List.length_take]
    have h3 : ("..." : String).length = 3 := rfl
    have hd : t.length = t.data.length := rfl
    rw [h3]
    omega

/-- Unfolding of the success branch of generate_chat_title. -/
theorem generate_chat_title_ok (raw : String) :
    GeminiClient.generate_chat_title (RemoteResult.ok raw)
      = if GeminiClient.capTitle (GeminiClient.cleanTitle raw) == ""
        then GeminiClient.defaultTitle
        else GeminiClient.capTitle (GeminiClient.cleanTitle raw) := rfl

/-- C8 (amended): the produced title never exceeds 30 characters and an
empty or failed inference yields the default title, but the truncation
threshold is 30 characters, not 27: a cleaned title longer than 30
characters is cut to its first 27 plus the three-dot marker (total
exactly 30), while any nonempty cleaned title of up to 30 characters —
including ones of 28 to 30 characters — is returned unchanged, without
the marker. -/
theorem C8_cap_triggers_above_30_not_27 (remote : RemoteResult) :
    (GeminiClient.generate_chat_title remote).length ≤ 30
    ∧ (∀ raw, remote = RemoteResult.ok raw →
        30 < (GeminiClient.cleanTitle raw).length →
        GeminiClient.generate_chat_title remote
          = String.mk ((GeminiClient.cleanTitle raw).data.take 27) ++ "..."
        ∧ (GeminiClient.generate_chat_title remote).length = 30)
    ∧ (∀ raw, remote = RemoteResult.ok raw →
        (GeminiClient.cleanTitle raw).length ≤ 30 →
        GeminiClient.cleanTitle raw ≠ "" →
        GeminiClient.generate_chat_title remote = GeminiClient.cleanTitle raw)
    ∧ (∀ raw, remote = RemoteResult.ok raw →
        GeminiClient.cleanTitle raw = "" →
        GeminiClient.generate_chat_title remote = GeminiClient.defaultTitle)
    ∧ (∀ e, remote = RemoteResult.error e →
        GeminiClient.generate_chat_title remote = GeminiClient.defaultTitle) := by
  cases remote with
  | ok raw =>
      refine ⟨?_, ?_, ?_, ?_, ?_⟩
      · rw [generate_chat_title_ok]
        by_cases hb : GeminiClient.capTitle (GeminiClient.cleanTitle raw) == ""
        · simp only [hb, if_true]
          decide
        · simp only [hb, Bool.false_eq_true, if_false]
          exact capTitle_length_le _
      · intro raw2 heq hgt
        cases heq
        obtain ⟨hcap, hlen⟩ := capTitle_eq_of_gt _ hgt
        have hnb : (GeminiClient.capTitle (GeminiClient.cleanTitle raw) == "") = false := by
          refine beq_eq_false_iff_ne.mpr ?_
          intro h0
          rw [h0] at hlen
          exact absurd hlen (by decide)
        rw [generate_chat_title_ok]
        simp only [hnb, Bool.false_eq_true, if_false]
        exact ⟨hcap, hlen⟩
      · intro raw2 heq hle hne
        cases heq
        have hcap : GeminiClient.capTitle (GeminiClient.cleanTitle raw)
            = GeminiClient.cleanTitle raw := by
          unfold GeminiClient.capTitle
          rw [if_neg (by omega)]
        have hnb : (GeminiClient.capTitle (GeminiClient.cleanTitle raw) == "") = false := by
          rw [hcap]
          exact beq_eq_false_iff_ne.mpr hne
        rw [generate_chat_title_ok]
        simp only [hnb, Bool.false_eq_true, if_false]
        exact hcap
      · intro raw2 heq h0
        cases heq
        have hcap : GeminiClient.capTitle (GeminiClient.cleanTitle raw) = "" := by
          rw [h0]
          rfl
        rw [generate_chat_title_ok, hcap]
        simp
      · intro e heq
        exact RemoteResult.noConfusion heq
  | error e =>
      refine ⟨?_, ?_, ?_, ?_, ?_⟩
      · show GeminiClient.defaultTitle.length ≤ 30
        decide
      · intro raw heq
        exact RemoteResult.noConfusion heq
      · intro raw heq
        exact RemoteResult.noConfusion heq
      · intro raw heq
        exact RemoteResult.noConfusion heq
      · intro e2 heq
        cases heq
        rfl

/-- C8 witness: a 31-character inferred title is cut to its first 27
characters plus the marker, total length exactly 30; and a
whitespace-only inferred title cleans to the empty string and yields
the default title. -/
theorem C8_truncation_witness :
    (30 < (GeminiClient.cleanTitle "abcdefghijklmnopqrstuvwxyzabcde").length
      ∧ (GeminiClient.generate_chat_title
            (RemoteResult.ok "abcdefghijklmnopqrstuvwxyzabcde")
          = String.mk
              ((GeminiClient.cleanTitle "abcdefghijklmnopqrstuvwxyzabcde").data.take 27)
              ++ "..."
        ∧ (GeminiClient.generate_chat_title
            (RemoteResult.ok "abcdefghijklmnopqrstuvwxyzabcde")).length = 30))
    ∧ (GeminiClient.cleanTitle "  " = ""
      ∧ GeminiClient.generate_chat_title (RemoteResult.ok "  ")
          = GeminiClient.defaultTitle) :=
  ⟨⟨by decide,
    (C8_cap_triggers_above_30_not_27
       (RemoteResult.ok "abcdefghijklmnopqrstuvwxyzabcde")).2.1
      "abcdefghijklmnopqrstuvwxyzabcde" rfl (by decide)⟩,
   ⟨by decide,
    (C8_cap_triggers_above_30_not_27 (RemoteResult.ok "  ")).2.2.2.1
      "  " rfl (by decide)⟩⟩

/-- C8 counterexample: a 28-character inferred title exceeds 27
characters, yet the produced title is returned unchanged: its length is
28, not 30, and no ellipsis marker is appended. -/
theorem C8_counterexample :
    27 < (GeminiClient.cleanTitle "abcdefghijklmnopqrstuvwxyzab").length
    ∧ GeminiClient.generate_chat_title
        (RemoteResult.ok "abcdefghijklmnopqrstuvwxyzab")
      = "abcdefghijklmnopqrstuvwxyzab"
    ∧ (GeminiClient.generate_chat_title
        (RemoteResult.ok "abcdefghijklmnopqrstuvwxyzab")).length = 28
    ∧ ¬ (GeminiClient.generate_chat_title
        (RemoteResult.ok "abcdefghijklmnopqrstuvwxyzab")).length = 30 := by
  refine ⟨by decide, by decide, by decide, by decide⟩

/-! ## C10 -/

/-- C10: the chat history handed to the remote call of send_message is
the persisted message list with its last element — the just-appended
user message — removed, and the new user text is passed separately as
the next turn, so it reaches the remote request exactly once and is
never duplicated in the replayed history. Holds whenever the stored
timestamps of the conversation are in insertion order and do not exceed
the insert time of the new message. -/
theorem C10_history_excludes_new_user_message (s : DBState) (conv msg : String)
    (t1 t2 : Nat) (remote : ChatRequest → RemoteResult)
    (hsorted : (msgsFor s conv).Pairwise (fun a b => a.timestamp ≤ b.timestamp))
    (hle : ∀ m ∈ msgsFor s conv, m.timestamp ≤ t1) :
    (Database.get_messages
        (Database.add_message s conv "user" msg t1 false).1 conv).dropLast
      = msgsFor s conv
    ∧ (ChatManager.send_message s conv msg t1 t2 remote false false).2
        = GeminiClient.generate_chat_response remote (msgsFor s conv) msg := by
  have hfilter : msgsFor (Database.add_message s conv "user" msg t1 false).1 conv
      = msgsFor s conv ++ [⟨s.nextMessageId, conv, "user", msg, t1⟩] := by
    have h := msgsFor_add_message s conv conv "user" msg t1
    simpa using h
  have hsorted2 : (msgsFor s conv
        ++ [(⟨s.nextMessageId, conv, "user", msg, t1⟩ : MessageRow)]).Pairwise
      (fun a b => a.timestamp ≤ b.timestamp) := by
    rw [List.pairwise_append]
    refine ⟨hsorted, List.pairwise_singleton _ _, ?_⟩
    intro a ha b hb
    rw [List.mem_singleton] at hb
    subst hb
    exact hle a ha
  have hget : Database.get_messages
      (Database.add_message s conv "user" msg t1 false).1 conv
      = msgsFor s conv ++ [⟨s.nextMessageId, conv, "user", msg, t1⟩] := by
    rw [get_messages_eq_filter _ _ (by rw [hfilter]; exact hsorted2), hfilter]
  constructor
  · rw [hget, List.dropLast_concat]
  · simp only [ChatManager.send_message]
    rw [hget, List.dropLast_concat]

/-- A database holding conversation "c" with one already-answered prior
message inserted at time 1. -/
def oneMsgState : DBState :=
  (Database.add_message convC "c" "user" "前の質問" 1 false).1

/-- C10 witness: the claim applied to the concrete one-message
conversation, sending a new message at time 2. -/
theorem C10_witness :
    ((msgsFor oneMsgState "c").Pairwise (fun a b => a.timestamp ≤ b.timestamp)
      ∧ ∀ m ∈ msgsFor oneMsgState "c", m.timestamp ≤ 2)
    ∧ ((Database.get_messages
          (Database.add_message oneMsgState "c" "user" "Hello" 2 false).1 "c").dropLast
        = msgsFor oneMsgState "c"
      ∧ (ChatManager.send_message oneMsgState "c" "Hello" 2 3
            (fun _ => RemoteResult.ok "Hi") false false).2
          = GeminiClient.generate_chat_response (fun _ => RemoteResult.ok "Hi")
              (msgsFor oneMsgState "c") "Hello") :=
  ⟨⟨by decide, by decide⟩,
   C10_history_excludes_new_user_message oneMsgState "c" "Hello" 2 3
     (fun _ => RemoteResult.ok "Hi") (by decide) (by decide)⟩

/-! ## C3 -/

/-- One appendMessage call of a sequence: the role and content passed in,
and the CURRENT_TIMESTAMP value the insert would receive. -/
structure AppendCall where
  role : String
  content : String
  now : Nat
deriving DecidableEq

/-- Run a sequence of appendMessage calls against one conversation. -/
def appendAll (s : DBState) (conv : String) (calls : List AppendCall) : DBState :=
  calls.foldl
    (fun st c => (Database.add_message st conv c.role c.content c.now false).1) s

/-- The rows such a sequence inserts, starting from a given
AUTOINCREMENT id. -/
def insertedRows (conv : String) (start : Nat) : List AppendCall → List MessageRow
  | [] => []
  | c :: cs =>
      ⟨start, conv, c.role, c.content, c.now⟩ :: insertedRows conv (start + 1) cs

/-- appendAll appends exactly the expected rows, with consecutive
AUTOINCREMENT ids, to the end of the messages table. -/
theorem appendAll_messages (conv : String) (calls : List AppendCall) :
    ∀ s : DBState,
      (appendAll s conv calls).messages
        = s.messages ++ insertedRows conv s.nextMessageId calls := by
  induction calls with
  | nil =>
      intro s
      simp [appendAll, insertedRows]
  | cons c cs ih =>
      intro s
      show (appendAll ((Database.add_message s conv c.role c.content c.now false).1)
          conv cs).messages = _
      rw [ih]
      simp [Database.add_message, insertedRows]

/-- Every row of insertedRows belongs to the conversation, has id at
least the start id, and carries the timestamp of one of the calls. -/
theorem mem_insertedRows (conv : String) (calls : List AppendCall) :
    ∀ (start : Nat) (m : MessageRow), m ∈ insertedRows conv start calls →
      m.conversation_id = conv ∧ start ≤ m.id
      ∧ m.timestamp ∈ calls.map AppendCall.now := by
  induction calls with
  | nil =>
      intro start m h
      simp [insertedRows] at h
  | cons c cs ih =>
      intro start m h
      simp only [insertedRows, List.mem_cons] at h
      rcases h with h | h
      · subst h
        simp
      · obtain ⟨h1, h2, h3⟩ := ih (start + 1) m h
        refine ⟨h1, by omega, ?_⟩
        rw [List.map_cons]
        exact List.mem_cons_of_mem _ h3

/-- The ids of insertedRows are strictly increasing. -/
theorem insertedRows_id_strict (conv : String) (calls : List AppendCall) :
    ∀ start : Nat,
      (insertedRows conv start calls).Pairwise (fun a b => a.id < b.id) := by
  induction calls with
  | nil =>
      intro start
      simp [insertedRows]
  | cons c cs ih =>
      intro start
      simp only [insertedRows]
      refine List.Pairwise.cons ?_ (ih (start + 1))
      intro b hb
      have hge := (mem_insertedRows conv cs (start + 1) b hb).2.1
      show start < b.id
      omega

/-- When the call timestamps are non-decreasing, so are the timestamps
of the inserted rows. -/
theorem insertedRows_time_sorted (conv : String) :
    ∀ calls : List AppendCall, calls.Pairwise (fun a b => a.now ≤ b.now) →
      ∀ start : Nat,
        (insertedRows conv start calls).Pairwise
          (fun a b => a.timestamp ≤ b.timestamp)
  | [], _, start => by simp [insertedRows]
  | c :: cs, h, start => by
      rcases List.pairwise_cons.mp h with ⟨hc, hcs⟩
      refine List.Pairwise.cons ?_ (insertedRows_time_sorted conv cs hcs (start + 1))
      intro b hb
      obtain ⟨-, -, h3⟩ := mem_insertedRows conv cs (start + 1) b hb
      obtain ⟨d, hd, hdts⟩ := List.mem_map.mp h3
      show c.now ≤ b.timestamp
      rw [← hdts]
      exact hc d hd

/-- insertedRows survives the conversation filter untouched. -/
theorem filter_insertedRows (conv : String) (calls : List AppendCall)
    (start : Nat) :
    (insertedRows conv start calls).filter
        (fun m => m.conversation_id == conv)
      = insertedRows conv start calls := by
  apply List.filter_eq_self.mpr
  intro m hm
  have h1 := (mem_insertedRows conv calls start m hm).1
  simp [h1]

/-- C3 (amended): for every sequence of appendMessage calls on one
conversation — other conversations may hold rows too — listMessages
returns the prior rows followed by exactly the appended messages in call
order, with strictly increasing ids; but the ids (the only sequence
position the store assigns) come from a table-wide AUTOINCREMENT
counter, so they may have gaps, and call order is preserved because the
ORDER BY timestamp respects insertion order when timestamps are
non-decreasing. No row is ever mutated: the prior table content is a
prefix of the new one. -/
theorem C3_order_kept_ids_strictly_increase_with_gaps (s : DBState)
    (conv : String) (calls : List AppendCall)
    (hsorted : (msgsFor s conv).Pairwise (fun a b => a.timestamp ≤ b.timestamp))
    (hids : (msgsFor s conv).Pairwise (fun a b => a.id < b.id))
    (hbound : ∀ m ∈ msgsFor s conv, m.id < s.nextMessageId)
    (hcalls : calls.Pairwise (fun a b => a.now ≤ b.now))
    (hcross : ∀ m ∈ msgsFor s conv, ∀ c ∈ calls, m.timestamp ≤ c.now) :
    (appendAll s conv calls).messages
      = s.messages ++ insertedRows conv s.nextMessageId calls
    ∧ Database.get_messages (appendAll s conv calls) conv
      = msgsFor s conv ++ insertedRows conv s.nextMessageId calls
    ∧ (msgsFor s conv ++ insertedRows conv s.nextMessageId calls).Pairwise
        (fun a b => a.id < b.id) := by
  have hmsgs := appendAll_messages conv calls s
  have hfilterAll : msgsFor (appendAll s conv calls) conv
      = msgsFor s conv ++ insertedRows conv s.nextMessageId calls := by
    show (appendAll s conv calls).messages.filter _ = _
    rw [hmsgs, List.filter_append, filter_insertedRows]
    rfl
  have hsorted2 : (msgsFor s conv ++ insertedRows conv s.nextMessageId calls).Pairwise
      (fun a b => a.timestamp ≤ b.timestamp) := by
    rw [List.pairwise_append]
    refine ⟨hsorted, insertedRows_time_sorted conv calls hcalls _, ?_⟩
    intro a ha b hb
    obtain ⟨-, -, h3⟩ := mem_insertedRows conv calls s.nextMessageId b hb
    obtain ⟨d, hd, hdts⟩ := List.mem_map.mp h3
    rw [← hdts]
    exact hcross a ha d hd
  refine ⟨hmsgs, ?_, ?_⟩
  · rw [get_messages_eq_filter _ _ (by rw [hfilterAll]; exact hsorted2), hfilterAll]
  · rw [List.pairwise_append]
    refine ⟨hids, insertedRows_id_strict conv calls _, ?_⟩
    intro a ha b hb
    have h1 := hbound a ha
    have h2 := (mem_insertedRows conv calls s.nextMessageId b hb).2.1
    omega

/-- A database holding one empty conversation "a". -/
def convA : DBState :=
  (Database.create_conversation DBState.empty "a" "チャットA" 0).1

/-- The concrete two-call sequence of the C3 witness. -/
def twoCalls : List AppendCall := [⟨"user", "hi", 1⟩, ⟨"assistant", "yo", 2⟩]

/-- C3 witness: the amended claim applied to the empty conversation "a"
and a concrete user/assistant pair of appends. -/
theorem C3_witness :
    ((msgsFor convA "a").Pairwise (fun a b => a.timestamp ≤ b.timestamp)
      ∧ (msgsFor convA "a").Pairwise (fun a b => a.id < b.id)
      ∧ (∀ m ∈ msgsFor convA "a", m.id < convA.nextMessageId)
      ∧ twoCalls.Pairwise (fun a b => a.now ≤ b.now)
      ∧ (∀ m ∈ msgsFor convA "a", ∀ c ∈ twoCalls, m.timestamp ≤ c.now))
    ∧ ((appendAll convA "a" twoCalls).messages
        = convA.messages ++ insertedRows "a" convA.nextMessageId twoCalls
      ∧ Database.get_messages (appendAll convA "a" twoCalls) "a"
        = msgsFor convA "a" ++ insertedRows "a" convA.nextMessageId twoCalls
      ∧ (msgsFor convA "a" ++ insertedRows "a" convA.nextMessageId twoCalls).Pairwise
          (fun a b => a.id < b.id)) :=
  ⟨⟨by decide, by decide, by decide, by decide, by decide⟩,
   C3_order_kept_ids_strictly_increase_with_gaps convA "a" twoCalls
     (by decide) (by decide) (by decide) (by decide) (by decide)⟩

/-- The interleaving that shows the gap: conversations "a" and "b", one
message to "a", one to "b", another to "a". -/
def gapState : DBState :=
  (Database.add_message
    (Database.add_message
      (Database.add_message
        ((Database.create_conversation convA "b" "チャットB" 0).1)
        "a" "user" "aへ1通目" 1 false).1
      "b" "user" "bへ1通目" 2 false).1
    "a" "user" "aへ2通目" 3 false).1

/-- C3 counterexample: after appending to "a", then to "b", then to "a"
again, listMessages of "a" returns rows with ids 1 and 3 — strictly
increasing but with a gap, because the sequence position is the
table-wide AUTOINCREMENT id. -/
theorem C3_counterexample :
    (Database.get_messages gapState "a").map (fun m => m.id) = [1, 3]
    ∧ ¬ List.Chain' (fun a b => b = a + 1)
        ((Database.get_messages gapState "a").map (fun m => m.id)) := by
  have h : Database.get_messages gapState "a" = msgsFor gapState "a" :=
    get_messages_eq_filter _ _ (by decide)
  rw [h]
  have hmap : (msgsFor gapState "a").map (fun m => m.id) = [1, 3] := by decide
  rw [hmap]
  refine ⟨rfl, ?_⟩
  intro hchain
  rw [List.chain'_cons] at hchain
  exact absurd hchain.1 (by decide)

end GeminiApp
